import Mathlib

/-
Verification of the presenton/tutorials repository: three Python batch scripts
that build prompts from structured data, call a presentation-generation HTTP
service, and save the resulting PDF artifacts.

The scripts are embedded shallowly:
- pure prompt-building code becomes Lean functions on explicit record types
  (pandas numeric columns become rationals, string columns become strings);
- the network is an oracle: the outcome of each HTTP call is an input, either an
  exception (modelling a raised requests error) or a response value;
- the observable behaviour of each script is a trace of events (log lines, network
  calls, file writes) plus, for the batch scripts, an optional uncaught
  exception that aborts the run.
-/

/-- Value placed in the form-data dictionary of a generation request.
The Python scripts put either string literals or an int literal there. -/
inductive FormValue where
  | str (s : String)
  | int (n : Int)
deriving DecidableEq

/-- True exactly on string form values. -/
def FormValue.isStr : FormValue → Bool
  | .str _ => true
  | .int _ => false

/-- Response of the generation endpoint, as consumed by the scripts:
HTTP status, raw body text, and the parsed JSON field `path`. -/
structure GenResponse where
  status : Nat
  text : String
  path : String
deriving DecidableEq

/-- Response of the artifact download request: HTTP status and binary body. -/
structure DlResponse where
  status : Nat
  content : String
deriving DecidableEq

/-- Outcome of one HTTP call: a raised exception (with message) or a response. -/
abbrev HttpOutcome (α : Type) := Except String α

/-- Python `response.ok`: status code below 400. -/
def HttpOk (status : Nat) : Bool := decide (status < 400)

/-- Observable events of a script run. -/
inductive Event where
  | log (msg : String)
  | webFetch (url : String)
  | modelCall (purpose : String)
  | genRequest (data : List (String × FormValue))
  | download (url : String)
  | fileWrite (filename : String) (content : String)
deriving DecidableEq

/-- True exactly on local file-write events. -/
def Event.isFileWrite : Event → Bool
  | .fileWrite _ _ => true
  | _ => false

/-- True exactly on events that are network calls. -/
def Event.isNetwork : Event → Bool
  | .webFetch _ => true
  | .modelCall _ => true
  | .genRequest _ => true
  | .download _ => true
  | _ => false

/-- Oracle for the two HTTP calls made per record by the CSV batch scripts:
the generation POST and the artifact-download GET. -/
structure NetOracle where
  genOutcome : HttpOutcome GenResponse
  dlOutcome : HttpOutcome DlResponse

/-- Predicate: neither HTTP call of the record raises an exception
(responses may still carry failing status codes). -/
def NetOracle.exnFree (n : NetOracle) : Prop :=
  (∃ r, n.genOutcome = .ok r) ∧ (∃ d, n.dlOutcome = .ok d)

/-- Sequential batch driver: run one record after another, in order, stopping
at the first uncaught exception (Python has no try/except in the CSV loops,
so a raised exception ends the process; events already performed persist). -/
def runBatch {α : Type} (step : α → List Event × Option String) :
    List α → List Event × Option String
  | [] => ([], none)
  | x :: xs =>
    match step x with
    | (evs, some e) => (evs, some e)
    | (evs, none) =>
      let r := runBatch step xs
      (evs ++ r.1, r.2)

/-- Round a rational to the nearest integer, ties to even. This embeds the
rounding performed by Python float formatting with 0 decimals; on the decimal
inputs appearing in the claims the binary double is never exactly halfway, so
the exact-rational rounding agrees with the float rounding. -/
def roundHalfEven (q : ℚ) : ℤ :=
  if q - ⌊q⌋ < 1/2 then ⌊q⌋
  else if (1:ℚ)/2 < q - ⌊q⌋ then ⌊q⌋ + 1
  else if ⌊q⌋ % 2 = 0 then ⌊q⌋ else ⌊q⌋ + 1

/-- Insert a comma after every third character; applied to the reversed digit
string, this realises the thousands grouping of Python format spec with comma. -/
def commaGroup : List Char → List Char
  | a :: b :: c :: d :: rest => a :: b :: c :: ',' :: commaGroup (d :: rest)
  | l => l

/-- Render a natural number with comma thousands separators. -/
def commaSepNat (n : Nat) : String :=
  ⟨(commaGroup (toString n).data.reverse).reverse⟩

/-- Embedding of the Python format spec comma-and-zero-decimals applied to a
numeric value: round to the nearest integer and insert thousands separators. -/
def commaFmt0 (q : ℚ) : String :=
  let n := roundHalfEven q
  if n < 0 then "-" ++ commaSepNat n.natAbs else commaSepNat n.toNat

/-- Render a magnitude given in hundredths as a decimal with exactly two
digits after the point. -/
def twoDecString (m : Nat) : String :=
  toString (m / 100) ++ "." ++ ((if m % 100 < 10 then "0" else "") ++ toString (m % 100))

/-- Embedding of the Python format spec with two decimals applied to a numeric
value: round to the nearest hundredth and render with exactly two decimals. -/
def format2f (q : ℚ) : String :=
  let n := roundHalfEven (q * 100)
  (if n < 0 then "-" else "") ++ twoDecString n.natAbs

/-- Mean of a list of rationals (pandas mean; batch groups are nonempty). -/
def meanQ (l : List ℚ) : ℚ := l.sum / l.length

/-- First-occurrence deduplication, as pandas Series.unique: keep each value
the first time it appears, preserving order. -/
def uniqueAux {α : Type} [DecidableEq α] : List α → List α → List α
  | [], _ => []
  | x :: xs, seen => if x ∈ seen then uniqueAux xs seen else x :: uniqueAux xs (x :: seen)

/-- First-occurrence unique values of a list (pandas Series.unique). -/
def uniqueFirst {α : Type} [DecidableEq α] (l : List α) : List α := uniqueAux l []

/-- Split a character list on the slash character (Python str.split with a
one-character separator); the result is always nonempty. -/
def splitOnSlash : List Char → List (List Char)
  | [] => [[]]
  | c :: rest =>
    match splitOnSlash rest with
    | [] => [[]]
    | h :: t => if c = '/' then [] :: h :: t else (c :: h) :: t

/-- Last segment after splitting on slash, as Python path.split with index -1. -/
def lastSegment (s : String) : String := ⟨(splitOnSlash s.data).getLastD []⟩

/-- Python str.strip: drop whitespace from both ends. -/
def pyStrip (s : String) : String :=
  ⟨((s.data.dropWhile Char.isWhitespace).reverse.dropWhile Char.isWhitespace).reverse⟩

/-- Python string slicing from the start, s[:n]. -/
def strTake (s : String) (n : Nat) : String := ⟨s.data.take n⟩

/-- Substring containment test, used to state naming counterexamples. -/
def strContainsSub (s sub : String) : Bool :=
  s.data.tails.any (fun t => sub.data.isPrefixOf t)

namespace StudentReports

/-- Field access on a pandas CSV row, modelled as association-list lookup
(rows of students.csv; every consumed column is present in the data). -/
def rowGet (row : List (String × String)) (k : String) : String :=
  (row.lookup k).getD ""

/-- Columns of students.csv consumed by the prompt builder and the main loop. -/
def consumedKeys : List String :=
  ["Name", "Final Grade", "ECA Participation", "Sports Involvement",
   "Quiz Scores", "Class Behavior", "Comment"]

/-- Embedding of build_prompt in generate_reports.py. -/
def build_prompt (row : List (String × String)) : String :=
  "Student Name: " ++ rowGet row "Name" ++ "\n" ++
  "Final Grade: " ++ rowGet row "Final Grade" ++ "\n" ++
  "ECA Participation: " ++ rowGet row "ECA Participation" ++ "\n" ++
  "Sports Involvement: " ++ rowGet row "Sports Involvement" ++ "\n" ++
  "Quiz Scores: " ++ rowGet row "Quiz Scores" ++ "\n" ++
  "Class Behavior: " ++ rowGet row "Class Behavior" ++ "\n" ++
  "Teacher\x27s Comment: " ++ rowGet row "Comment" ++ "\n\n" ++
  "Generate a parent-friendly presentation summarizing this student\x27s academic and extracurricular performance, highlighting strengths, areas for improvement, and any special notes from the teacher."

/-- Form data of the generation POST in generate_reports.py. -/
def requestData (prompt : String) : List (String × FormValue) :=
  [("prompt", .str prompt), ("n_slides", .str "8"), ("language", .str "English"),
   ("theme", .str "light"), ("export_as", .str "pdf")]

/-- One iteration of the main loop of generate_reports.py: a student row plus
the oracle for its two HTTP calls. -/
structure StudentInput where
  row : List (String × String)
  net : NetOracle

/-- Embedding of one iteration of the main loop of generate_reports.py.
Returns the events performed and, if an HTTP call raised, the uncaught
exception that ends the whole process. -/
def processStudentRecord (i : StudentInput) : List Event × Option String :=
  let name := rowGet i.row "Name"
  let prompt := build_prompt i.row
  let pre := [Event.log ("Generating presentation for " ++ name),
              Event.genRequest (requestData prompt)]
  match i.net.genOutcome with
  | .error e => (pre, some e)
  | .ok resp =>
    if HttpOk resp.status then
      let pre2 := pre ++ [Event.log "Downloading presentation...",
                          Event.download ("http://localhost:5000" ++ resp.path)]
      match i.net.dlOutcome with
      | .error e => (pre2, some e)
      | .ok dl =>
        if HttpOk dl.status then
          let filename := "presentations/" ++ lastSegment resp.path
          (pre2 ++ [Event.fileWrite filename dl.content,
                    Event.log ("Presentation for " ++ name ++ " saved as " ++ filename)], none)
        else
          (pre2 ++ [Event.log ("Failed to download presentation for " ++ name ++ ": " ++ toString dl.status)], none)
    else
      (pre ++ [Event.log ("Failed to generate presentation for " ++ name ++ ": " ++ resp.text)], none)

/-- Embedding of the whole batch run of generate_reports.py over its rows. -/
def studentsMain (inputs : List StudentInput) : List Event × Option String :=
  runBatch processStudentRecord inputs

end StudentReports

namespace SalesReports

/-- One row of sales_data.csv, with the columns consumed by the script. -/
structure SalesRow where
  Region : String
  TotalSales : ℚ
  NewClients : Int
  ChurnRate : ℚ
  Satisfaction : ℚ
  Growth : ℚ
  Marketing : ℚ
  NotableEvents : String
  ProductA : ℚ
  ProductB : ℚ
  ProductC : ℚ
  TopSalesRep : String
deriving DecidableEq

/-- Sum of the Total Sales column over a company group. -/
def totalSales (g : List SalesRow) : ℚ := (g.map SalesRow.TotalSales).sum

/-- Sum of Total Sales over the rows of one region of the group, as
group[group[Region] == region][Total Sales].sum() in the script. -/
def regionSales (g : List SalesRow) (r : String) : ℚ :=
  ((g.filter (fun x => x.Region == r)).map SalesRow.TotalSales).sum

/-- Markdown line of the regional-performance table for one region. -/
def regionLine (g : List SalesRow) (r : String) : String :=
  "| " ++ r ++ " | $" ++ commaFmt0 (regionSales g r) ++ " |\n"

/-- Markdown line of the product-performance table for one region. -/
def productLine (g : List SalesRow) (r : String) : String :=
  let gr := g.filter (fun x => x.Region == r)
  "| " ++ r ++ " | $" ++ commaFmt0 ((gr.map SalesRow.ProductA).sum) ++
  " | $" ++ commaFmt0 ((gr.map SalesRow.ProductB).sum) ++
  " | $" ++ commaFmt0 ((gr.map SalesRow.ProductC).sum) ++ " |\n"

/-- Markdown line of the top-performers table for one region: first row of the
region sub-frame (iloc[0]; regions are drawn from the group, so nonempty). -/
def topLine (g : List SalesRow) (r : String) : String :=
  let gr := g.filter (fun x => x.Region == r)
  "| " ++ r ++ " | " ++ ((gr.map SalesRow.TopSalesRep).headD "") ++
  " | " ++ toString ((gr.map SalesRow.NewClients).headD 0) ++ " |\n"

/-- Embedding of build_prompt in generate_sales_reports.py. -/
def build_prompt (company : String) (g : List SalesRow) : String :=
  let regions := uniqueFirst (g.map SalesRow.Region)
  let churn := meanQ (g.map SalesRow.ChurnRate)
  let satisfaction := meanQ (g.map SalesRow.Satisfaction)
  let growth := meanQ (g.map SalesRow.Growth)
  let marketing := (g.map SalesRow.Marketing).sum
  let total_clients := (g.map SalesRow.NewClients).sum
  let notable := String.intercalate "; " (uniqueFirst (g.map SalesRow.NotableEvents))
  "\n## Sales Report for " ++ company ++
  "\n\n### 1. Executive Summary\n- Total sales: **$" ++ commaFmt0 (totalSales g) ++
  "**\n- Average client churn: **" ++ format2f churn ++
  "%**\n- Customer satisfaction: **" ++ format2f satisfaction ++
  "/10**\n- Notable events: _" ++ notable ++
  "_\n\n### 2. Regional Performance\n**Bar Chart:** Regional Total Sales\n\n| Region | Sales |\n|---|---|\n" ++
  String.join (regions.map (regionLine g)) ++
  "\n\n### 3. Product Performance\n**Bar Chart:** Sales by Product per Region\n\n| Region | Product A | Product B | Product C |\n|---|---|---|---|\n" ++
  String.join (regions.map (productLine g)) ++
  "\n\n### 4. Key Metrics & Trends\n- Aggregate new clients this month: **" ++ toString total_clients ++
  "**\n- Mean growth vs last quarter: **" ++ format2f growth ++
  "%**\n- Total marketing spend: **$" ++ commaFmt0 marketing ++
  "**\n\n### 5. Top Performers\n| Region | Top Sales Rep | New Clients |\n|---|---|---|\n" ++
  String.join (regions.map (topLine g)) ++
  "\n\n---\n\n**Instructions:**\n- Create 1 slide per section (5 total).\n- Use clean, professional visuals.\n- For charts, display the specified bar chart with given data.\n- Use summary bullet points before every chart or table for clarity.\n**Do exactly as in said here.**\n"

/-- Form data of the generation POST in generate_sales_reports.py. -/
def requestData (prompt : String) : List (String × FormValue) :=
  [("prompt", .str prompt), ("n_slides", .str "5"), ("language", .str "English"),
   ("theme", .str "light_red"), ("export_as", .str "pdf")]

/-- One iteration of the main loop of generate_sales_reports.py: a company
group plus the oracle for its two HTTP calls. -/
structure SalesInput where
  company : String
  group : List SalesRow
  net : NetOracle

/-- Embedding of one iteration of the main loop of generate_sales_reports.py. -/
def processSalesRecord (i : SalesInput) : List Event × Option String :=
  let prompt := build_prompt i.company i.group
  let pre := [Event.log ("Generating report for " ++ i.company),
              Event.genRequest (requestData prompt)]
  match i.net.genOutcome with
  | .error e => (pre, some e)
  | .ok resp =>
    if HttpOk resp.status then
      let pre2 := pre ++ [Event.log "Downloading report...",
                          Event.download ("http://localhost:5000" ++ resp.path)]
      match i.net.dlOutcome with
      | .error e => (pre2, some e)
      | .ok dl =>
        if HttpOk dl.status then
          let filename := "reports/" ++ i.company ++ "_Sales_Report.pdf"
          (pre2 ++ [Event.fileWrite filename dl.content,
                    Event.log ("Report for " ++ i.company ++ " saved as " ++ filename)], none)
        else
          (pre2 ++ [Event.log ("Failed to download report for " ++ i.company ++ ": " ++ toString dl.status)], none)
    else
      (pre ++ [Event.log ("Failed to generate report for " ++ i.company ++ ": " ++ resp.text)], none)

/-- Embedding of the whole batch run of generate_sales_reports.py over its
company groups. -/
def salesMain (inputs : List SalesInput) : List Event × Option String :=
  runBatch processSalesRecord inputs

end SalesReports

namespace PitchDeck

/-- Abstract content of a fetched HTML page: each extractable element is
present or absent (BeautifulSoup find returning an element or None). -/
structure Page where
  title : Option String
  metaDescription : Option String
  h1 : Option String
  firstParagraph : Option String
deriving DecidableEq

/-- Company-info record built by fetch_company_info. -/
structure CompanyInfo where
  url : String
  title : String
  description : String
  h1 : String
  first_paragraph : String
deriving DecidableEq

/-- Python str.startswith, on the underlying character lists. -/
def strStartsWith (s p : String) : Bool := p.data.isPrefixOf s.data

/-- Protocol prefixing at the top of fetch_company_info: add https when the
URL starts with neither scheme. -/
def normalizeUrl (u : String) : String :=
  if strStartsWith u "http://" || strStartsWith u "https://" then u else "https://" ++ u

/-- Embedding of PitchDeckGenerator.fetch_company_info: on a fetch exception
return the record with empty extracted fields; on success extract the four
elements, substituting fixed defaults for absent elements. -/
def fetch_company_info (url : String) (outcome : HttpOutcome Page) : CompanyInfo :=
  let u := normalizeUrl url
  match outcome with
  | .error _ => ⟨u, "", "", "", ""⟩
  | .ok p =>
    { url := u
      title := match p.title with
        | some t => pyStrip t
        | none => "No title found"
      description := p.metaDescription.getD ""
      h1 := (p.h1.map pyStrip).getD ""
      first_paragraph := (p.firstParagraph.map pyStrip).getD "" }

/-- Fallback questions used when the model returns fewer than 3 questions. -/
def fallback_questions : List String :=
  ["What is your company\x27s main product or service?",
   "Who is your target market?",
   "What makes your solution unique?"]

/-- Default questions returned when the model call raises any exception
(the source repeats the same three literals in the except branch). -/
def default_questions : List String :=
  ["What is your company\x27s main product or service?",
   "Who is your target market?",
   "What makes your solution unique?"]

/-- Embedding of PitchDeckGenerator.generate_questions, as a function of the
outcome of the chat-completion call (the extracted questions list, or the
exception raised anywhere inside the try block). -/
def generate_questions (outcome : HttpOutcome (List String)) : List String :=
  match outcome with
  | .error _ => default_questions
  | .ok qs =>
    if qs.length < 3 then qs ++ fallback_questions.take (3 - qs.length)
    else qs.take 3

/-- Embedding of PitchDeckGenerator.get_default_structure. -/
def get_default_structure (info : CompanyInfo) : String :=
  "\n# " ++ info.title ++ " - Pitch Deck\n\n## Slide 1: Title Slide\n- Company Name: " ++ info.title ++
  "\n- Tagline: " ++ strTake info.description 50 ++
  "...\n\n## Slide 2: Problem Statement\n- [To be filled based on user input]\n\n## Slide 3: Our Solution\n- [To be filled based on user input]\n\n## Slide 4: Market Opportunity\n- [To be filled based on user input]\n\n## Slide 5: Business Model\n- [To be filled based on user input]\n\n## Slide 6: Competitive Advantage\n- [To be filled based on user input]\n\n## Slide 7: Go-to-Market Strategy\n- [To be filled based on user input]\n\n## Slide 8: Financial Projections\n- [To be filled based on user input]\n\n## Slide 9: Team\n- [To be filled based on user input]\n\n## Slide 10: Funding Ask\n- [To be filled based on user input]\n\n## Slide 11: Contact Information\n- Website: " ++ info.url ++
  "\n- [Additional contact details]\n"

/-- Embedding of PitchDeckGenerator.generate_pitch_deck_structure: the model
reply stripped of surrounding whitespace, or the default structure when the
call raised. -/
def generate_pitch_deck_structure (outcome : HttpOutcome String) (info : CompanyInfo) : String :=
  match outcome with
  | .error _ => get_default_structure info
  | .ok s => pyStrip s

/-- Prompt assembled by PitchDeckGenerator.generate_presentation. -/
def presentationPrompt (info : CompanyInfo) (deckStructure : String) : String :=
  "\nCreate a professional pitch deck for " ++ info.title ++
  ".\n\nCompany Information:\n- Website: " ++ info.url ++
  "\n- Description: " ++ info.description ++
  "\n\nPitch Deck Structure:\n" ++ deckStructure ++
  "\n\nCreate a compelling pitch deck with professional slides, clear messaging, and engaging visuals.\nFocus on storytelling and making the business case compelling.\n"

/-- Form data of the generation POST in pitch_deck_agent.py. Note the
n_slides value is the int literal 10 in the source, not a string. -/
def requestData (prompt : String) : List (String × FormValue) :=
  [("prompt", .str prompt), ("n_slides", .int 10), ("language", .str "English"),
   ("theme", .str "light"), ("export_as", .str "pdf")]

/-- Result of PitchDeckGenerator.generate_presentation: the parsed response,
or None when the call raised or the status was non-2xx (raise_for_status
throws and the except branch returns None). -/
def generate_presentation (outcome : HttpOutcome GenResponse) : Option GenResponse :=
  match outcome with
  | .error _ => none
  | .ok r => if HttpOk r.status then some r else none

/-- Oracle for one interactive run of pitch_deck_agent.py: the environment,
the operator inputs, and the outcome of every external call. -/
structure PitchOracle where
  apiKey : Option String
  companyUrl : String
  fetchOutcome : HttpOutcome Page
  questionsOutcome : HttpOutcome (List String)
  answers : List String
  structureOutcome : HttpOutcome String
  genOutcome : HttpOutcome GenResponse

/-- Embedding of main() in pitch_deck_agent.py: construct the generator
(which exits with code 1 when OPENAI_API_KEY is unset, before anything else)
and execute run(). Returns the event trace and the process exit code. -/
def pitchMain (o : PitchOracle) : List Event × Nat :=
  match o.apiKey with
  | none =>
    ([Event.log "❌ Error: OPENAI_API_KEY environment variable not set",
      Event.log "Please set your OpenAI API key: export OPENAI_API_KEY=\x27your-key-here\x27"], 1)
  | some _ =>
    let banner := [Event.log "🚀 Pitch Deck Generator"]
    let url := pyStrip o.companyUrl
    if url = "" then (banner ++ [Event.log "❌ No URL provided. Exiting."], 0)
    else
      let info := fetch_company_info url o.fetchOutcome
      let questions := generate_questions o.questionsOutcome
      let deckStructure := generate_pitch_deck_structure o.structureOutcome info
      let prompt := presentationPrompt info deckStructure
      let mid := [Event.webFetch (normalizeUrl url), Event.modelCall "questions"] ++
        [Event.log "\n📝 Please answer the following questions:"] ++
        (questions.enumFrom 1).map (fun p => Event.log ("\nQuestion " ++ toString p.1 ++ ": " ++ p.2)) ++
        [Event.modelCall "structure", Event.genRequest (requestData prompt)]
      match generate_presentation o.genOutcome with
      | some r =>
        (banner ++ mid ++
         [Event.log "\n🎉 Pitch deck generation completed!",
          Event.log ("📄 You can download the presentation from: http://localhost:5000" ++ r.path)], 0)
      | none =>
        (banner ++ mid ++
         [Event.log "\n❌ Failed to generate presentation. Please check your setup."], 0)

end PitchDeck

/-- Concrete fixtures used by the closed evaluation theorems below. -/
def okGen : GenResponse := ⟨200, "", "/static/presentations/abc123.pdf"⟩

/-- Concrete successful download response fixture. -/
def okDl : DlResponse := ⟨200, "PDFDATA"⟩

/-- Oracle fixture in which both HTTP calls succeed. -/
def goodNet : NetOracle := ⟨.ok okGen, .ok okDl⟩

/-- Oracle fixture in which the generation POST raises a network exception. -/
def crashNet : NetOracle := ⟨.error "ConnectionError", .error "ConnectionError"⟩

/-- Oracle fixture in which the generation POST returns HTTP 500. -/
def http500Net : NetOracle := ⟨.ok ⟨500, "Internal Server Error", ""⟩, .ok okDl⟩

/-- Student row fixture named Alice. -/
def aliceRow : List (String × String) :=
  [("Name", "Alice"), ("Final Grade", "A"), ("ECA Participation", "Debate"),
   ("Sports Involvement", "Soccer"), ("Quiz Scores", "9/10"),
   ("Class Behavior", "Excellent"), ("Comment", "Great year")]

/-- Student row fixture named Bob. -/
def bobRow : List (String × String) :=
  [("Name", "Bob"), ("Final Grade", "C"), ("ECA Participation", "Chess"),
   ("Sports Involvement", "None"), ("Quiz Scores", "6/10"),
   ("Class Behavior", "Good"), ("Comment", "Needs focus")]

/-- Student row fixture named Carol. -/
def carolRow : List (String × String) :=
  [("Name", "Carol"), ("Final Grade", "B"), ("ECA Participation", "Drama"),
   ("Sports Involvement", "Tennis"), ("Quiz Scores", "8/10"),
   ("Class Behavior", "Very good"), ("Comment", "Improving")]

/-- C3: the Q&A adapter returns exactly 3 questions for every outcome of the
language-model call: fewer than 3 returned questions are padded from the fixed
fallback set, more than 3 are truncated to the first 3, and an exception
yields the fixed 3 default questions; the adapter never raises. -/
theorem c3_exactly_three_questions (o : HttpOutcome (List String)) :
    (PitchDeck.generate_questions o).length = 3
    ∧ (∀ e, o = .error e →
        PitchDeck.generate_questions o = PitchDeck.default_questions)
    ∧ (∀ qs, o = .ok qs → qs.length < 3 →
        PitchDeck.generate_questions o = qs ++ PitchDeck.fallback_questions.take (3 - qs.length))
    ∧ (∀ qs, o = .ok qs → 3 ≤ qs.length →
        PitchDeck.generate_questions o = qs.take 3) := by
  refine ⟨?_, ?_, ?_, ?_⟩
  · cases o with
    | error e => simp [PitchDeck.generate_questions, PitchDeck.default_questions]
    | ok qs =>
      by_cases h : qs.length < 3
      · simp only [PitchDeck.generate_questions, if_pos h, List.length_append,
          List.length_take, PitchDeck.fallback_questions, List.length_cons]
        simp only [List.length_nil]
        omega
      · simp only [PitchDeck.generate_questions, if_neg h, List.length_take]
        omega
  · intro e he
    subst he
    rfl
  · intro qs hqs h
    subst hqs
    simp [PitchDeck.generate_questions, h]
  · intro qs hqs h
    subst hqs
    simp [PitchDeck.generate_questions, Nat.not_lt.mpr h]

/-- Witness for C3: a one-question reply is padded with the first two fallback
questions, and an exception yields the three default questions. -/
theorem c3_exactly_three_questions_w :
    PitchDeck.generate_questions (.ok ["How large is the team?"]) =
      ["How large is the team?"] ++ PitchDeck.fallback_questions.take 2
    ∧ PitchDeck.generate_questions (.error "AuthenticationError") = PitchDeck.default_questions
    ∧ (PitchDeck.generate_questions (.ok [])).length = 3 :=
  ⟨(c3_exactly_three_questions (.ok ["How large is the team?"])).2.2.1 _ rfl (by decide),
   (c3_exactly_three_questions (.error "AuthenticationError")).2.1 _ rfl,
   (c3_exactly_three_questions (.ok [])).1⟩

/-- C5 counterexample: on a successfully fetched page with no title element,
the web source reader substitutes the placeholder text "No title found" for
the title field, not the empty string that the claim requires. -/
theorem c5_cex :
    (PitchDeck.fetch_company_info "example.com" (.ok ⟨none, none, none, none⟩)).title
      = "No title found"
    ∧ (PitchDeck.fetch_company_info "example.com" (.ok ⟨none, none, none, none⟩)).title
      ≠ "" := by
  constructor
  · rfl
  · decide

/-- C5 amended: for every fetched page, an absent meta description, first
heading or first paragraph is substituted with the empty string, while an
absent title is substituted with the placeholder "No title found"; on a fetch
failure the returned record keeps the (normalized) url and has all four
extracted fields empty rather than aborting the run. -/
theorem c5_fetch_defaults (url : String) (o : HttpOutcome PitchDeck.Page) :
    (∀ e, o = .error e →
      PitchDeck.fetch_company_info url o =
        ⟨PitchDeck.normalizeUrl url, "", "", "", ""⟩)
    ∧ (∀ p, o = .ok p → p.metaDescription = none →
        (PitchDeck.fetch_company_info url o).description = "")
    ∧ (∀ p, o = .ok p → p.h1 = none →
        (PitchDeck.fetch_company_info url o).h1 = "")
    ∧ (∀ p, o = .ok p → p.firstParagraph = none →
        (PitchDeck.fetch_company_info url o).first_paragraph = "")
    ∧ (∀ p, o = .ok p → p.title = none →
        (PitchDeck.fetch_company_info url o).title = "No title found") := by
  refine ⟨?_, ?_, ?_, ?_, ?_⟩
  · intro e he
    subst he
    rfl
  all_goals intro p hp h2
  all_goals subst hp
  all_goals simp [PitchDeck.fetch_company_info, h2]

/-- Witness for C5 amended: a timed-out fetch yields the all-empty record with
the https-prefixed url, and a page without a title yields the placeholder. -/
theorem c5_fetch_defaults_w :
    PitchDeck.fetch_company_info "acme.io" (.error "ReadTimeout") =
      ⟨"https://acme.io", "", "", "", ""⟩
    ∧ (PitchDeck.fetch_company_info "acme.io"
        (.ok ⟨none, some "desc", some "Heading", none⟩)).title = "No title found" :=
  ⟨by
    have h := (c5_fetch_defaults "acme.io" (.error "ReadTimeout")).1 "ReadTimeout" rfl
    rw [h]
    decide,
   (c5_fetch_defaults "acme.io" (.ok ⟨none, some "desc", some "Heading", none⟩)).2.2.2.2 _ rfl rfl⟩

/-- C6 counterexample: the pitch-deck script sends the n_slides form field as
the int literal 10, not as an integer-as-string value. -/
theorem c6_cex :
    (PitchDeck.requestData "p").lookup "n_slides" = some (FormValue.int 10)
    ∧ ((PitchDeck.requestData "p").lookup "n_slides").map FormValue.isStr = some false := by
  decide

/-- C6 amended: every generation request carries form fields prompt, n_slides,
language, theme and export_as; the two CSV scripts pass n_slides as the
strings "5" and "8", while the pitch-deck script passes the int 10 (serialized
only later, by the HTTP client). -/
theorem c6_request_fields (prompt : String) :
    (SalesReports.requestData prompt).lookup "prompt" = some (.str prompt)
    ∧ (SalesReports.requestData prompt).lookup "n_slides" = some (.str "5")
    ∧ (SalesReports.requestData prompt).lookup "language" = some (.str "English")
    ∧ (SalesReports.requestData prompt).lookup "theme" = some (.str "light_red")
    ∧ (SalesReports.requestData prompt).lookup "export_as" = some (.str "pdf")
    ∧ (StudentReports.requestData prompt).lookup "prompt" = some (.str prompt)
    ∧ (StudentReports.requestData prompt).lookup "n_slides" = some (.str "8")
    ∧ (StudentReports.requestData prompt).lookup "language" = some (.str "English")
    ∧ (StudentReports.requestData prompt).lookup "theme" = some (.str "light")
    ∧ (StudentReports.requestData prompt).lookup "export_as" = some (.str "pdf")
    ∧ (PitchDeck.requestData prompt).lookup "prompt" = some (.str prompt)
    ∧ (PitchDeck.requestData prompt).lookup "n_slides" = some (.int 10)
    ∧ (PitchDeck.requestData prompt).lookup "language" = some (.str "English")
    ∧ (PitchDeck.requestData prompt).lookup "theme" = some (.str "light")
    ∧ (PitchDeck.requestData prompt).lookup "export_as" = some (.str "pdf") := by
  refine ⟨rfl, rfl, rfl, rfl, rfl, rfl, rfl, rfl, rfl, rfl, rfl, rfl, rfl, rfl, rfl⟩

/-- C8: when OPENAI_API_KEY is unset, the pitch-deck process terminates at
startup with exit code 1 and guidance, and its trace contains no network
event: no web fetch, no model call and no generation request is attempted. -/
theorem c8_missing_api_key (o : PitchDeck.PitchOracle) (h : o.apiKey = none) :
    PitchDeck.pitchMain o =
      ([Event.log "❌ Error: OPENAI_API_KEY environment variable not set",
        Event.log "Please set your OpenAI API key: export OPENAI_API_KEY=\x27your-key-here\x27"], 1)
    ∧ (PitchDeck.pitchMain o).1.filter Event.isNetwork = [] := by
  have h1 : PitchDeck.pitchMain o =
      ([Event.log "❌ Error: OPENAI_API_KEY environment variable not set",
        Event.log "Please set your OpenAI API key: export OPENAI_API_KEY=\x27your-key-here\x27"], 1) := by
    unfold PitchDeck.pitchMain
    rw [h]
  refine ⟨h1, ?_⟩
  rw [h1]
  rfl

/-- Witness for C8: a concrete run with no API key set. -/
theorem c8_missing_api_key_w :
    PitchDeck.pitchMain ⟨none, "acme.io", .error "t", .error "t", [], .error "t", .error "t"⟩ =
      ([Event.log "❌ Error: OPENAI_API_KEY environment variable not set",
        Event.log "Please set your OpenAI API key: export OPENAI_API_KEY=\x27your-key-here\x27"], 1)
    ∧ (PitchDeck.pitchMain
        ⟨none, "acme.io", .error "t", .error "t", [], .error "t", .error "t"⟩).1.filter
        Event.isNetwork = [] :=
  c8_missing_api_key ⟨none, "acme.io", .error "t", .error "t", [], .error "t", .error "t"⟩ rfl

/-- Helper: the rounded value is within one half of the argument. -/
theorem roundHalfEven_nearest (q : ℚ) : |(roundHalfEven q : ℚ) - q| ≤ 1/2 := by
  have h0 : ((⌊q⌋ : ℚ)) ≤ q := Int.floor_le q
  have h1 : q < ⌊q⌋ + 1 := Int.lt_floor_add_one q
  unfold roundHalfEven
  rw [abs_le]
  split_ifs with ha hb hc <;> push_cast <;>
    [skip; skip; (have he : q - ⌊q⌋ ≤ 1/2 := not_lt.mp hb);
     (have hg : (1:ℚ)/2 ≤ q - ⌊q⌋ := not_lt.mp ha)] <;>
    constructor <;> linarith

/-- Helper: rounding a nonnegative rational gives a nonnegative integer. -/
theorem roundHalfEven_nonneg (q : ℚ) (h : 0 ≤ q) : 0 ≤ roundHalfEven q := by
  have h0 : (0:ℤ) ≤ ⌊q⌋ := Int.floor_nonneg.mpr h
  unfold roundHalfEven
  split_ifs <;> omega

/-- Helper: decimal rendering of a two-digit number has two characters. -/
theorem toString_len_two : ∀ k : Nat, k < 100 → 10 ≤ k → (toString k).length = 2 := by decide

/-- Helper: decimal rendering of a one-digit number has one character. -/
theorem toString_len_one : ∀ k : Nat, k < 10 → (toString k).length = 1 := by decide

/-- Helper: prepending the empty string is the identity. -/
theorem empty_append_str (s : String) : "" ++ s = s := by
  cases s
  rfl

/-- Helper: the fractional tail of twoDecString has exactly two characters. -/
theorem twoDecString_shape (m : Nat) :
    ∃ t : String, t.length = 2 ∧ twoDecString m = toString (m / 100) ++ "." ++ t := by
  refine ⟨(if m % 100 < 10 then "0" else "") ++ toString (m % 100), ?_, ?_⟩
  · have hm : m % 100 < 100 := Nat.mod_lt _ (by norm_num)
    by_cases hlt : m % 100 < 10
    · rw [if_pos hlt, String.length_append, toString_len_one _ hlt]
      rfl
    · rw [if_neg hlt, empty_append_str, toString_len_two _ hm (not_lt.mp hlt)]
  · rw [twoDecString, String.append_assoc]

/-- Helper: concrete evaluation of the half-even rounding at 1234567.8. -/
theorem roundHalfEven_at_tenths : roundHalfEven (12345678/10 : ℚ) = 1234568 := by
  unfold roundHalfEven
  norm_num

/-- Helper: concrete evaluation of the half-even rounding at 4.5 times 100. -/
theorem roundHalfEven_at_450 : roundHalfEven ((9/2 : ℚ) * 100) = 450 := by
  unfold roundHalfEven
  norm_num

/-- C4 counterexample: the sales-report currency rendering of 1234567.8 is
the rounded "$1,234,568", not "$1,234,567" with the integer part truncated as
the claim states. -/
theorem c4_cex : "$" ++ commaFmt0 (12345678/10 : ℚ) ≠ "$1,234,567" := by
  simp only [commaFmt0, roundHalfEven_at_tenths]
  decide

/-- C4 amended: in the sales-report prompt builder, currency values render as
a dollar sign followed by the thousands-separated value rounded to the
nearest whole unit (half to even), so 1234567.8 renders as the rounded
"$1,234,568"; percentage values render with exactly two decimal places, so
4.5 renders as "4.50%". -/
theorem c4_number_formatting :
    "$" ++ commaFmt0 (12345678/10 : ℚ) = "$1,234,568"
    ∧ format2f (9/2 : ℚ) ++ "%" = "4.50%"
    ∧ (∀ q : ℚ, |(roundHalfEven q : ℚ) - q| ≤ 1/2)
    ∧ (∀ q : ℚ, 0 ≤ q → ∃ t : String, t.length = 2 ∧
        format2f q = toString ((roundHalfEven (q * 100)).natAbs / 100) ++ "." ++ t) := by
  refine ⟨?_, ?_, roundHalfEven_nearest, ?_⟩
  · simp only [commaFmt0, roundHalfEven_at_tenths]
    decide
  · simp only [format2f, roundHalfEven_at_450]
    decide
  · intro q hq
    have hn : 0 ≤ roundHalfEven (q * 100) := roundHalfEven_nonneg _ (by positivity)
    obtain ⟨t, ht, he⟩ := twoDecString_shape (roundHalfEven (q * 100)).natAbs
    refine ⟨t, ht, ?_⟩
    simp only [format2f, if_neg (not_lt.mpr hn)]
    rw [empty_append_str, he]

/-- Witness for C4 amended: the two-decimal shape at the concrete input 4.5. -/
theorem c4_number_formatting_w :
    (0:ℚ) ≤ 9/2 ∧ ∃ t : String, t.length = 2 ∧
      format2f (9/2 : ℚ) = toString ((roundHalfEven ((9/2 : ℚ) * 100)).natAbs / 100) ++ "." ++ t :=
  ⟨by norm_num, c4_number_formatting.2.2.2 (9/2 : ℚ) (by norm_num)⟩

/-- Helper: membership in the first-occurrence deduplication with a seen set. -/
theorem mem_uniqueAux {α : Type} [DecidableEq α] (a : α) :
    ∀ l seen : List α, a ∈ uniqueAux l seen ↔ a ∈ l ∧ a ∉ seen := by
  intro l
  induction l with
  | nil => intro seen; simp [uniqueAux]
  | cons x xs ih =>
    intro seen
    by_cases hx : x ∈ seen
    · rw [uniqueAux, if_pos hx, ih]
      constructor
      · rintro ⟨h1, h2⟩
        exact ⟨List.mem_cons_of_mem _ h1, h2⟩
      · rintro ⟨h1, h2⟩
        rcases List.mem_cons.mp h1 with rfl | h1
        · exact absurd hx h2
        · exact ⟨h1, h2⟩
    · rw [uniqueAux, if_neg hx]
      constructor
      · intro h
        rcases List.mem_cons.mp h with rfl | h1
        · exact ⟨List.mem_cons_self _ _, hx⟩
        · obtain ⟨h2, h3⟩ := (ih _).mp h1
          exact ⟨List.mem_cons_of_mem _ h2, fun hs => h3 (List.mem_cons_of_mem _ hs)⟩
      · rintro ⟨h1, h2⟩
        by_cases hax : a = x
        · subst hax
          exact List.mem_cons_self _ _
        · rcases List.mem_cons.mp h1 with h | h
          · exact absurd h hax
          · refine List.mem_cons_of_mem _ ((ih _).mpr ⟨h, ?_⟩)
            intro hs
            rcases List.mem_cons.mp hs with h3 | h3
            · exact hax h3
            · exact h2 h3

/-- Helper: the first-occurrence deduplication has no duplicates. -/
theorem nodup_uniqueAux {α : Type} [DecidableEq α] :
    ∀ l seen : List α, (uniqueAux l seen).Nodup := by
  intro l
  induction l with
  | nil => intro seen; simp [uniqueAux]
  | cons x xs ih =>
    intro seen
    by_cases hx : x ∈ seen
    · rw [uniqueAux, if_pos hx]
      exact ih _
    · rw [uniqueAux, if_neg hx, List.nodup_cons]
      refine ⟨fun hmem => ?_, ih _⟩
      obtain ⟨_, h2⟩ := (mem_uniqueAux x xs (x :: seen)).mp hmem
      exact h2 (List.mem_cons_self _ _)

/-- Helper: uniqueFirst keeps exactly the values of the list. -/
theorem mem_uniqueFirst {α : Type} [DecidableEq α] (a : α) (l : List α) :
    a ∈ uniqueFirst l ↔ a ∈ l := by
  rw [uniqueFirst, mem_uniqueAux]
  simp

/-- Helper: uniqueFirst has no duplicates. -/
theorem nodup_uniqueFirst {α : Type} [DecidableEq α] (l : List α) :
    (uniqueFirst l).Nodup :=
  nodup_uniqueAux l []

/-- Helper: a sum of pointwise sums splits into two sums. -/
theorem sum_map_add_q {α : Type} (l : List α) (f g : α → ℚ) :
    (l.map fun x => f x + g x).sum = (l.map f).sum + (l.map g).sum := by
  induction l with
  | nil => simp
  | cons x xs ih =>
    simp only [List.map_cons, List.sum_cons, ih]
    ring

/-- Helper: summing an indicator over a duplicate-free list containing the
marked element yields the value once. -/
theorem sum_map_ite_zero {α : Type} [DecidableEq α] (c : ℚ) (a : α) :
    ∀ rs : List α, rs.Nodup → a ∈ rs →
    (rs.map fun r => if a = r then c else 0).sum = c := by
  intro rs
  induction rs with
  | nil =>
    intro _ h
    cases h
  | cons r rs ih =>
    intro hnd hmem
    rw [List.nodup_cons] at hnd
    rcases List.mem_cons.mp hmem with rfl | h
    · rw [List.map_cons, List.sum_cons, if_pos rfl]
      have hz : (rs.map fun x => if a = x then c else 0).sum = 0 := by
        apply List.sum_eq_zero
        intro v hv
        obtain ⟨y, hy, hvy⟩ := List.mem_map.mp hv
        have hay : a ≠ y := fun he => hnd.1 (he ▸ hy)
        rw [← hvy, if_neg hay]
      rw [hz, add_zero]
    · have hna : a ≠ r := fun he => hnd.1 (he ▸ h)
      rw [List.map_cons, List.sum_cons, if_neg hna, zero_add, ih hnd.2 h]

/-- Helper: the per-region sum over a group with one more row. -/
theorem regionSales_cons (x : SalesReports.SalesRow) (t : List SalesReports.SalesRow)
    (r : String) :
    SalesReports.regionSales (x :: t) r =
      (if x.Region = r then x.TotalSales else 0) + SalesReports.regionSales t r := by
  simp only [SalesReports.regionSales, List.filter_cons]
  by_cases h : x.Region = r
  · simp [h]
  · simp [h]

/-- Helper: summing the per-region totals over any duplicate-free list of
regions covering the group recovers the group total. -/
theorem sum_regionSales (g : List SalesReports.SalesRow) :
    ∀ rs : List String, rs.Nodup → (∀ x ∈ g, x.Region ∈ rs) →
    (rs.map (SalesReports.regionSales g)).sum = SalesReports.totalSales g := by
  induction g with
  | nil =>
    intro rs _ _
    rw [SalesReports.totalSales]
    simp only [List.map_nil, List.sum_nil]
    apply List.sum_eq_zero
    intro v hv
    obtain ⟨r, _, hr⟩ := List.mem_map.mp hv
    rw [← hr]
    simp [SalesReports.regionSales]
  | cons x t ih =>
    intro rs hnd hcov
    have hx : x.Region ∈ rs := hcov x (List.mem_cons_self _ _)
    have hcovt : ∀ y ∈ t, y.Region ∈ rs := fun y hy => hcov y (List.mem_cons_of_mem _ hy)
    have hfun : SalesReports.regionSales (x :: t) =
        fun r => (if x.Region = r then x.TotalSales else 0) + SalesReports.regionSales t r :=
      funext (regionSales_cons x t)
    rw [hfun, sum_map_add_q, sum_map_ite_zero x.TotalSales x.Region rs hnd hx,
      ih rs hnd hcovt]
    simp [SalesReports.totalSales]

/-- C7: for every company group, the regional-performance table built by the
sales prompt builder has exactly one row per distinct region of the group
(the rendered region list is duplicate-free and contains precisely the
regions occurring in the group), and the sum of the per-region Total Sales
figures equals the executive-summary total sales figure. -/
theorem c7_regional_partition (g : List SalesReports.SalesRow) :
    (uniqueFirst (g.map SalesReports.SalesRow.Region)).Nodup
    ∧ (∀ r, r ∈ uniqueFirst (g.map SalesReports.SalesRow.Region) ↔
        r ∈ g.map SalesReports.SalesRow.Region)
    ∧ ((uniqueFirst (g.map SalesReports.SalesRow.Region)).map
        (SalesReports.regionSales g)).sum = SalesReports.totalSales g := by
  refine ⟨nodup_uniqueFirst _, fun r => mem_uniqueFirst r _, ?_⟩
  apply sum_regionSales
  · exact nodup_uniqueFirst _
  · intro x hx
    exact (mem_uniqueFirst _ _).mpr (List.mem_map_of_mem _ hx)

/-- C9: the prompt builders are deterministic pure functions of their inputs:
the student prompt depends only on the consumed columns of the row (two rows
agreeing on those columns produce byte-identical prompt text, whatever other
columns or orderings they carry), and repeated invocations of the sales
prompt builder on the same record produce byte-identical text. -/
theorem c9_prompt_deterministic :
    (∀ r1 r2 : List (String × String),
      (∀ k ∈ StudentReports.consumedKeys,
        StudentReports.rowGet r1 k = StudentReports.rowGet r2 k) →
      StudentReports.build_prompt r1 = StudentReports.build_prompt r2)
    ∧ (∀ (c : String) (g : List SalesReports.SalesRow),
        SalesReports.build_prompt c g = SalesReports.build_prompt c g) := by
  constructor
  · intro r1 r2 h
    have h1 := h "Name" (by simp [StudentReports.consumedKeys])
    have h2 := h "Final Grade" (by simp [StudentReports.consumedKeys])
    have h3 := h "ECA Participation" (by simp [StudentReports.consumedKeys])
    have h4 := h "Sports Involvement" (by simp [StudentReports.consumedKeys])
    have h5 := h "Quiz Scores" (by simp [StudentReports.consumedKeys])
    have h6 := h "Class Behavior" (by simp [StudentReports.consumedKeys])
    have h7 := h "Comment" (by simp [StudentReports.consumedKeys])
    simp only [StudentReports.build_prompt, h1, h2, h3, h4, h5, h6, h7]
  · intro c g
    rfl

/-- Witness for C9: two concrete rows that agree on the consumed columns but
differ in ordering and in an extra column produce identical prompts. -/
theorem c9_prompt_deterministic_w :
    StudentReports.build_prompt
      [("Comment", "Great year"), ("Name", "Alice"), ("Final Grade", "A"),
       ("ECA Participation", "Debate"), ("Sports Involvement", "Soccer"),
       ("Quiz Scores", "9/10"), ("Class Behavior", "Excellent"), ("Homeroom", "B2")] =
    StudentReports.build_prompt
      [("Name", "Alice"), ("Final Grade", "A"), ("ECA Participation", "Debate"),
       ("Sports Involvement", "Soccer"), ("Quiz Scores", "9/10"),
       ("Class Behavior", "Excellent"), ("Comment", "Great year")] :=
  c9_prompt_deterministic.1 _ _ (by decide)

/-- Helper: filtering file writes out of a list of rendered log events. -/
theorem filter_fileWrite_logs {β : Type} (l : List β) (f : β → String) :
    (l.map fun p => Event.log (f p)).filter Event.isFileWrite = [] := by
  induction l with
  | nil => rfl
  | cons x xs ih => simp [List.filter_cons, Event.isFileWrite, ih]

/-- Helper: the per-record file writes of the students script, by case on the
two HTTP outcomes. -/
theorem studentRecord_writes (i : StudentReports.StudentInput) :
    (StudentReports.processStudentRecord i).1.filter Event.isFileWrite =
      match i.net.genOutcome, i.net.dlOutcome with
      | .ok r, .ok d =>
        if HttpOk r.status && HttpOk d.status
        then [Event.fileWrite ("presentations/" ++ lastSegment r.path) d.content]
        else []
      | _, _ => [] := by
  unfold StudentReports.processStudentRecord
  cases hg : i.net.genOutcome with
  | error e => simp [Event.isFileWrite]
  | ok r =>
    cases hd : i.net.dlOutcome with
    | error e =>
      by_cases hr : HttpOk r.status
      · simp [hr, Event.isFileWrite]
      · simp [hr, Event.isFileWrite]
    | ok d =>
      by_cases hr : HttpOk r.status
      · by_cases hdd : HttpOk d.status
        · simp [hr, hdd, Event.isFileWrite]
        · simp [hr, hdd, Event.isFileWrite]
      · simp [hr, Event.isFileWrite]

/-- Helper: the per-record file writes of the sales script, by case on the
two HTTP outcomes. -/
theorem salesRecord_writes (i : SalesReports.SalesInput) :
    (SalesReports.processSalesRecord i).1.filter Event.isFileWrite =
      match i.net.genOutcome, i.net.dlOutcome with
      | .ok r, .ok d =>
        if HttpOk r.status && HttpOk d.status
        then [Event.fileWrite ("reports/" ++ i.company ++ "_Sales_Report.pdf") d.content]
        else []
      | _, _ => [] := by
  unfold SalesReports.processSalesRecord
  cases hg : i.net.genOutcome with
  | error e => simp [Event.isFileWrite]
  | ok r =>
    cases hd : i.net.dlOutcome with
    | error e =>
      by_cases hr : HttpOk r.status
      · simp [hr, Event.isFileWrite]
      · simp [hr, Event.isFileWrite]
    | ok d =>
      by_cases hr : HttpOk r.status
      · by_cases hdd : HttpOk d.status
        · simp [hr, hdd, Event.isFileWrite]
        · simp [hr, hdd, Event.isFileWrite]
      · simp [hr, Event.isFileWrite]

/-- Helper: a record whose HTTP calls do not raise never aborts the students
batch. -/
theorem studentRecord_noabort (i : StudentReports.StudentInput) (h : i.net.exnFree) :
    (StudentReports.processStudentRecord i).2 = none := by
  obtain ⟨⟨r, hg⟩, ⟨d, hd⟩⟩ := h
  unfold StudentReports.processStudentRecord
  rw [hg, hd]
  by_cases hr : HttpOk r.status
  · by_cases hdd : HttpOk d.status
    · simp [hr, hdd]
    · simp [hr, hdd]
  · simp [hr]

/-- Helper: a record whose HTTP calls do not raise never aborts the sales
batch. -/
theorem salesRecord_noabort (i : SalesReports.SalesInput) (h : i.net.exnFree) :
    (SalesReports.processSalesRecord i).2 = none := by
  obtain ⟨⟨r, hg⟩, ⟨d, hd⟩⟩ := h
  unfold SalesReports.processSalesRecord
  rw [hg, hd]
  by_cases hr : HttpOk r.status
  · by_cases hdd : HttpOk d.status
    · simp [hr, hdd]
    · simp [hr, hdd]
  · simp [hr]

/-- Helper: when no record aborts, the batch driver performs the events of
every record in order and finishes normally. -/
theorem runBatch_flat {α : Type} (step : α → List Event × Option String) :
    ∀ inputs : List α, (∀ i ∈ inputs, (step i).2 = none) →
    runBatch step inputs = (inputs.flatMap fun i => (step i).1, none) := by
  intro inputs
  induction inputs with
  | nil =>
    intro _
    rfl
  | cons x xs ih =>
    intro h
    have hx : (step x).2 = none := h x (List.mem_cons_self _ _)
    have he : step x = ((step x).1, none) := by rw [← hx]
    rw [runBatch, he, List.flatMap_cons]
    dsimp only
    rw [ih (fun i hi => h i (List.mem_cons_of_mem _ hi))]

/-- C1 counterexample: in the students variant, two records with different
student names but the same service-returned path are saved under the same
file name, taken from the last segment of the returned path; the saved name
derives from the service response, not from the identity field of the record. -/
theorem c1_cex :
    (StudentReports.processStudentRecord ⟨aliceRow, goodNet⟩).1.filter Event.isFileWrite =
      [Event.fileWrite "presentations/abc123.pdf" "PDFDATA"]
    ∧ (StudentReports.processStudentRecord ⟨bobRow, goodNet⟩).1.filter Event.isFileWrite =
      [Event.fileWrite "presentations/abc123.pdf" "PDFDATA"]
    ∧ strContainsSub "presentations/abc123.pdf" "Alice" = false
    ∧ strContainsSub "presentations/abc123.pdf" "Bob" = false := by
  decide

/-- C1 amended: a record whose generation request and artifact download both
succeed ends SAVED with exactly one PDF written in the two CSV variants: the
sales variant writes reports slash company name Sales Report, named from the
company, while the students variant writes presentations slash the last
segment of the service-returned path, independent of the student name; the
pitch-deck variant performs no download and never writes a local file. -/
theorem c1_saved_artifacts :
    (∀ (i : SalesReports.SalesInput) (r : GenResponse) (d : DlResponse),
      i.net.genOutcome = .ok r → HttpOk r.status = true →
      i.net.dlOutcome = .ok d → HttpOk d.status = true →
      (SalesReports.processSalesRecord i).1.filter Event.isFileWrite =
        [Event.fileWrite ("reports/" ++ i.company ++ "_Sales_Report.pdf") d.content]
      ∧ (SalesReports.processSalesRecord i).2 = none)
    ∧ (∀ (i : StudentReports.StudentInput) (r : GenResponse) (d : DlResponse),
      i.net.genOutcome = .ok r → HttpOk r.status = true →
      i.net.dlOutcome = .ok d → HttpOk d.status = true →
      (StudentReports.processStudentRecord i).1.filter Event.isFileWrite =
        [Event.fileWrite ("presentations/" ++ lastSegment r.path) d.content]
      ∧ (StudentReports.processStudentRecord i).2 = none)
    ∧ (∀ o : PitchDeck.PitchOracle,
        (PitchDeck.pitchMain o).1.filter Event.isFileWrite = []) := by
  refine ⟨?_, ?_, ?_⟩
  · intro i r d hg hr hd hdd
    refine ⟨?_, salesRecord_noabort i ⟨⟨r, hg⟩, ⟨d, hd⟩⟩⟩
    rw [salesRecord_writes, hg, hd]
    simp [hr, hdd]
  · intro i r d hg hr hd hdd
    refine ⟨?_, studentRecord_noabort i ⟨⟨r, hg⟩, ⟨d, hd⟩⟩⟩
    rw [studentRecord_writes, hg, hd]
    simp [hr, hdd]
  · intro o
    unfold PitchDeck.pitchMain
    cases o.apiKey with
    | none => rfl
    | some k =>
      dsimp only
      by_cases hu : pyStrip o.companyUrl = ""
      · rw [if_pos hu]
        rfl
      · rw [if_neg hu]
        cases hgp : PitchDeck.generate_presentation o.genOutcome with
        | none =>
          simp [List.filter_append, List.filter_cons, Event.isFileWrite,
            filter_fileWrite_logs]
        | some r =>
          simp [List.filter_append, List.filter_cons, Event.isFileWrite,
            filter_fileWrite_logs]

/-- Witness for C1 amended: concrete successful runs of all three variants. -/
theorem c1_saved_artifacts_w :
    (SalesReports.processSalesRecord ⟨"Acme", [], goodNet⟩).1.filter Event.isFileWrite =
      [Event.fileWrite ("reports/" ++ "Acme" ++ "_Sales_Report.pdf") okDl.content]
    ∧ (SalesReports.processSalesRecord ⟨"Acme", [], goodNet⟩).2 = none
    ∧ (StudentReports.processStudentRecord ⟨aliceRow, goodNet⟩).1.filter Event.isFileWrite =
      [Event.fileWrite ("presentations/" ++ lastSegment okGen.path) okDl.content]
    ∧ (StudentReports.processStudentRecord ⟨aliceRow, goodNet⟩).2 = none
    ∧ (PitchDeck.pitchMain ⟨some "sk-key", "acme.io",
        .ok ⟨some "Acme", some "desc", some "head", some "para"⟩,
        .ok ["q1", "q2", "q3"], ["a1", "a2", "a3"], .ok "outline", .ok okGen⟩).1.filter
        Event.isFileWrite = [] := by
  have hs := c1_saved_artifacts.1 ⟨"Acme", [], goodNet⟩ okGen okDl rfl rfl rfl rfl
  have ht := c1_saved_artifacts.2.1 ⟨aliceRow, goodNet⟩ okGen okDl rfl rfl rfl rfl
  exact ⟨hs.1, hs.2, ht.1, ht.2, c1_saved_artifacts.2.2 _⟩

/-- C2 counterexample: a network exception raised by the generation POST on
the middle record of a three-record students batch is not caught: the run
aborts with the exception, the first record is still saved, and the third
record is never processed. -/
theorem c2_cex :
    (StudentReports.studentsMain
      [⟨aliceRow, goodNet⟩, ⟨bobRow, crashNet⟩, ⟨carolRow, goodNet⟩]).2 =
        some "ConnectionError"
    ∧ Event.fileWrite "presentations/abc123.pdf" "PDFDATA" ∈
        (StudentReports.studentsMain
          [⟨aliceRow, goodNet⟩, ⟨bobRow, crashNet⟩, ⟨carolRow, goodNet⟩]).1
    ∧ Event.log "Generating presentation for Carol" ∉
        (StudentReports.studentsMain
          [⟨aliceRow, goodNet⟩, ⟨bobRow, crashNet⟩, ⟨carolRow, goodNet⟩]).1 := by
  decide

/-- C2 amended: in both CSV batch scripts, as long as no HTTP call raises an
exception, the batch finishes normally and performs the events of every record in
order; a record whose generation POST returns a non-2xx response is logged
with the failure message and skipped (its trace ends at the failure log, with
no download and no file write) while every subsequent record is still
processed; an exception raised by an HTTP call, however, aborts the batch. -/
theorem c2_batch_continues :
    (∀ inputs : List StudentReports.StudentInput,
      (∀ i ∈ inputs, i.net.exnFree) →
      StudentReports.studentsMain inputs =
        (inputs.flatMap fun i => (StudentReports.processStudentRecord i).1, none))
    ∧ (∀ (i : StudentReports.StudentInput) (r : GenResponse),
      i.net.genOutcome = .ok r → HttpOk r.status = false →
      StudentReports.processStudentRecord i =
        ([Event.log ("Generating presentation for " ++ StudentReports.rowGet i.row "Name"),
          Event.genRequest (StudentReports.requestData (StudentReports.build_prompt i.row)),
          Event.log ("Failed to generate presentation for " ++
            StudentReports.rowGet i.row "Name" ++ ": " ++ r.text)], none))
    ∧ (∀ inputs : List SalesReports.SalesInput,
      (∀ i ∈ inputs, i.net.exnFree) →
      SalesReports.salesMain inputs =
        (inputs.flatMap fun i => (SalesReports.processSalesRecord i).1, none))
    ∧ (∀ (i : SalesReports.SalesInput) (r : GenResponse),
      i.net.genOutcome = .ok r → HttpOk r.status = false →
      SalesReports.processSalesRecord i =
        ([Event.log ("Generating report for " ++ i.company),
          Event.genRequest (SalesReports.requestData
            (SalesReports.build_prompt i.company i.group)),
          Event.log ("Failed to generate report for " ++ i.company ++ ": " ++ r.text)], none)) := by
  refine ⟨?_, ?_, ?_, ?_⟩
  · intro inputs h
    unfold StudentReports.studentsMain
    exact runBatch_flat _ inputs (fun i hi => studentRecord_noabort i (h i hi))
  · intro i r hg hr
    unfold StudentReports.processStudentRecord
    rw [hg]
    simp [hr]
  · intro inputs h
    unfold SalesReports.salesMain
    exact runBatch_flat _ inputs (fun i hi => salesRecord_noabort i (h i hi))
  · intro i r hg hr
    unfold SalesReports.processSalesRecord
    rw [hg]
    simp [hr]

/-- Witness for C2 amended: a concrete two-record students batch whose first
record gets HTTP 500 finishes normally with the events of both records, and the
concrete failing records of both scripts produce exactly the failure log. -/
theorem c2_batch_continues_w :
    StudentReports.studentsMain [⟨aliceRow, http500Net⟩, ⟨bobRow, goodNet⟩] =
      ([⟨aliceRow, http500Net⟩, ⟨bobRow, goodNet⟩].flatMap
        (fun i => (StudentReports.processStudentRecord i).1), none)
    ∧ StudentReports.processStudentRecord ⟨aliceRow, http500Net⟩ =
      ([Event.log ("Generating presentation for " ++ StudentReports.rowGet aliceRow "Name"),
        Event.genRequest (StudentReports.requestData (StudentReports.build_prompt aliceRow)),
        Event.log ("Failed to generate presentation for " ++
          StudentReports.rowGet aliceRow "Name" ++ ": " ++ "Internal Server Error")], none)
    ∧ SalesReports.salesMain [⟨"Acme", [], http500Net⟩, ⟨"Globex", [], goodNet⟩] =
      ([⟨"Acme", [], http500Net⟩, ⟨"Globex", [], goodNet⟩].flatMap
        (fun i => (SalesReports.processSalesRecord i).1), none)
    ∧ SalesReports.processSalesRecord ⟨"Acme", [], http500Net⟩ =
      ([Event.log ("Generating report for " ++ "Acme"),
        Event.genRequest (SalesReports.requestData (SalesReports.build_prompt "Acme" [])),
        Event.log ("Failed to generate report for " ++ "Acme" ++ ": " ++
          "Internal Server Error")], none) := by
  refine ⟨?_, ?_, ?_, ?_⟩
  · refine c2_batch_continues.1 _ ?_
    intro i hi
    rcases List.mem_cons.mp hi with rfl | hi
    · exact ⟨⟨_, rfl⟩, ⟨_, rfl⟩⟩
    · rcases List.mem_cons.mp hi with rfl | hi
      · exact ⟨⟨_, rfl⟩, ⟨_, rfl⟩⟩
      · cases hi
  · exact c2_batch_continues.2.1 _ ⟨500, "Internal Server Error", ""⟩ rfl rfl
  · refine c2_batch_continues.2.2.1 _ ?_
    intro i hi
    rcases List.mem_cons.mp hi with rfl | hi
    · exact ⟨⟨_, rfl⟩, ⟨_, rfl⟩⟩
    · rcases List.mem_cons.mp hi with rfl | hi
      · exact ⟨⟨_, rfl⟩, ⟨_, rfl⟩⟩
      · cases hi
  · exact c2_batch_continues.2.2.2 _ ⟨500, "Internal Server Error", ""⟩ rfl rfl

/-- C10: in both CSV batch scripts, a local file write for a record occurs
only when the generation request of that record succeeded and its artifact
download returned success; on any failure no file for the record is created
or truncated. -/
theorem c10_write_after_success :
    (∀ (i : StudentReports.StudentInput), ∀ e ∈ (StudentReports.processStudentRecord i).1,
      e.isFileWrite = true →
      (∃ r, i.net.genOutcome = .ok r ∧ HttpOk r.status = true) ∧
      (∃ d, i.net.dlOutcome = .ok d ∧ HttpOk d.status = true))
    ∧ (∀ (i : SalesReports.SalesInput), ∀ e ∈ (SalesReports.processSalesRecord i).1,
      e.isFileWrite = true →
      (∃ r, i.net.genOutcome = .ok r ∧ HttpOk r.status = true) ∧
      (∃ d, i.net.dlOutcome = .ok d ∧ HttpOk d.status = true)) := by
  constructor
  · intro i e he hw
    have hmem : e ∈ (StudentReports.processStudentRecord i).1.filter Event.isFileWrite :=
      List.mem_filter.mpr ⟨he, hw⟩
    rw [studentRecord_writes] at hmem
    cases hg : i.net.genOutcome with
    | error ex => simp [hg] at hmem
    | ok r =>
      cases hd : i.net.dlOutcome with
      | error ex => simp [hg, hd] at hmem
      | ok d =>
        cases hr : HttpOk r.status with
        | false => simp [hg, hd, hr] at hmem
        | true =>
          cases hdd : HttpOk d.status with
          | false => simp [hg, hd, hr, hdd] at hmem
          | true => exact ⟨⟨r, rfl, hr⟩, ⟨d, rfl, hdd⟩⟩
  · intro i e he hw
    have hmem : e ∈ (SalesReports.processSalesRecord i).1.filter Event.isFileWrite :=
      List.mem_filter.mpr ⟨he, hw⟩
    rw [salesRecord_writes] at hmem
    cases hg : i.net.genOutcome with
    | error ex => simp [hg] at hmem
    | ok r =>
      cases hd : i.net.dlOutcome with
      | error ex => simp [hg, hd] at hmem
      | ok d =>
        cases hr : HttpOk r.status with
        | false => simp [hg, hd, hr] at hmem
        | true =>
          cases hdd : HttpOk d.status with
          | false => simp [hg, hd, hr, hdd] at hmem
          | true => exact ⟨⟨r, rfl, hr⟩, ⟨d, rfl, hdd⟩⟩

/-- Witness for C10: the concrete write of a successful students record
implies both of its HTTP calls succeeded. -/
theorem c10_write_after_success_w :
    (∃ r, goodNet.genOutcome = .ok r ∧ HttpOk r.status = true) ∧
    (∃ d, goodNet.dlOutcome = .ok d ∧ HttpOk d.status = true) :=
  c10_write_after_success.1 ⟨aliceRow, goodNet⟩
    (Event.fileWrite "presentations/abc123.pdf" "PDFDATA") (by decide) (by decide)
